import Mathlib

/-!
Shallow embedding of the golem-stack file API core
(src/example-api/src/services/database.ts, src/example-api/src/utils/checksum.ts,
and the Hono route handlers in src/unnamed/part_001), together with the
properties claimed of it. The metadata store is the `files` table as an
insertion-ordered list of rows; the blob store is the uploads directory as a
list of (storageKey, bytes) pairs.
-/

namespace Golem

/-- One row of the `files` table (interface FileRecord in database.ts).
Timestamps are modelled as naturals, the UUID id as a string. -/
structure FileRecord where
  id : String
  filename : String
  original_name : String
  size : Nat
  mime_type : String
  checksum : String
  uploaded_at : Nat
  uploaded_by : String
  uploaded_instance : String
  created_at : Nat
  updated_at : Nat
deriving Repr, DecidableEq

/-- Insert payload (interface FileInsert in database.ts), with uploaded_by
already defaulted to "api-user" as the code does at the insert site. -/
structure FileInsert where
  filename : String
  original_name : String
  size : Nat
  mime_type : String
  checksum : String
  uploaded_by : String
  uploaded_instance : String
deriving Repr, DecidableEq

/-- The metadata store: rows of the `files` table in insertion order. -/
abbrev Store := List FileRecord

/-- The blob store: the uploads directory, keyed by generated filename. -/
abbrev BlobStore := List (String × List Nat)

/-- Row predicate for the dedup key: checksum = c AND size = n, as in the
WHERE clause of the duplicate-check SELECT. -/
def matchesKey (c : String) (n : Nat) (r : FileRecord) : Bool :=
  r.checksum == c && r.size == n

/-- The row the INSERT ... RETURNING * of insertFile produces: the payload's
columns plus the database-assigned id and NOW() timestamps. -/
def newRecOf (d : FileInsert) (newId : String) (now : Nat) : FileRecord :=
  { id := newId, filename := d.filename, original_name := d.original_name,
    size := d.size, mime_type := d.mime_type, checksum := d.checksum,
    uploaded_at := now, uploaded_by := d.uploaded_by,
    uploaded_instance := d.uploaded_instance,
    created_at := now, updated_at := now }

/-- DatabaseService.insertFile, with the SELECT and the INSERT allowed to see
different store states: `sSel` is the snapshot the FOR UPDATE SELECT reads,
`sNow` the store at the INSERT after any concurrently committed rows.  The
serial call is `insertFile` below, where both coincide.  The duplicate branch
keeps the JS truthiness guard on the re-selected row's id and filename
(returning null when either is empty); the insert branch raises on a unique
violation of filename or of (checksum, size), which the surrounding catch
turns into null with the transaction rolled back.  The boolean in the
result instruments which branch ran — true exactly when the INSERT created
the returned row — the isNew flag of the spec's InsertOrGetExisting, which
the PHP caller recovers by comparing filenames. -/
def insertFileAt (d : FileInsert) (newId : String) (now : Nat)
    (sSel sNow : Store) : Option (FileRecord × Bool) × Store :=
  match sSel.find? (matchesKey d.checksum d.size) with
  | some r =>
      if r.id ≠ "" ∧ r.filename ≠ "" then (some (r, false), sNow) else (none, sNow)
  | none =>
      if sNow.any (fun r => r.filename == d.filename)
          || sNow.any (matchesKey d.checksum d.size) then
        (none, sNow)
      else
        (some (newRecOf d newId now, true), sNow ++ [newRecOf d newId now])

/-- DatabaseService.insertFile run without interference: SELECT and INSERT
see the same store. -/
def insertFile (d : FileInsert) (newId : String) (now : Nat) (s : Store) :
    Option (FileRecord × Bool) × Store :=
  insertFileAt d newId now s s

/-- DatabaseService.deleteFile: inside a transaction, SELECT ... FOR UPDATE a
row with the given original_name (throwing, hence returning false, when none
exists), then DELETE every row with that original_name.  `dbOk = false`
models the database failing during the call, which the catch turns into
false with no rows removed. -/
def deleteFileDB (dbOk : Bool) (name : String) (s : Store) : Bool × Store :=
  if dbOk then
    if s.any (fun r => r.original_name == name) then
      (true, s.filter (fun r => !(r.original_name == name)))
    else
      (false, s)
  else
    (false, s)

/-- The maximum upload size from the route handler: 100 * 1024 * 1024 bytes. -/
def maxSize : Nat := 100 * 1024 * 1024

/-- Outcome of the upload route handler in part_001 (files.post).  The
success payload mirrors the JSON fields the handler returns: id, filename,
size, type, checksum, uploadedAt — note there is no duplicate field. -/
inductive UploadResult where
  | payloadTooLarge
  | metadataFailure
  | diskFailure
  | success (id : String) (filename : String) (size : Nat)
      (mimeType : String) (checksum : String) (uploadedAt : Nat)
deriving Repr, DecidableEq

/-- Bun.write filepath content: create or overwrite the file at that key. -/
def writeBlob (key : String) (content : List Nat) (b : BlobStore) : BlobStore :=
  b.filter (fun kv => !(kv.1 == key)) ++ [(key, content)]

/-- The insert payload the upload handler assembles for dbService.insertFile:
the generated key as filename, the uploaded file's name, size and (defaulted)
mime type, the computed checksum, "api-user" and the instance id. -/
def uploadInsert (checksum : String) (contentLen : Nat)
    (name mime inst genKey : String) : FileInsert :=
  { filename := genKey, original_name := name, size := contentLen,
    mime_type := (if mime == "" then "application/octet-stream" else mime),
    checksum := checksum, uploaded_by := "api-user",
    uploaded_instance := inst }

/-- The upload route handler files.post in part_001, with a file present.
`chk` is the awaited calculateChecksum; `genKey` the generated
timestamp_random_name filename; `newId`/`now` the database-assigned id and
timestamp; `diskOk` whether Bun.write succeeds; `compDbOk` whether the
database is reachable during the compensating dbService.deleteFile call
(whose boolean result the handler ignores).  The size check runs before any
checksum; after insertFile succeeds the handler writes the blob at `genKey`
unconditionally; on a disk failure it deletes by the file's original name
and answers 500. -/
def ingestTS (chk : List Nat → String) (content : List Nat)
    (name mime : String) (genKey newId : String) (now : Nat)
    (instanceId : String) (diskOk compDbOk : Bool)
    (s : Store) (b : BlobStore) : UploadResult × Store × BlobStore :=
  if content.length > maxSize then
    (.payloadTooLarge, s, b)
  else
    match insertFile (uploadInsert (chk content) content.length name mime instanceId genKey)
        newId now s with
    | (none, s') => (.metadataFailure, s', b)
    | (some (rec, _isNew), s') =>
        if diskOk then
          (.success rec.id name content.length mime (chk content) rec.uploaded_at,
           s', writeBlob genKey content b)
        else
          (.diskFailure, (deleteFileDB compDbOk name s').2, b)

/-- Outcome of the delete route handler files.delete in part_001. -/
inductive DeleteResult where
  | notFound
  | metadataDeleteFailure
  | deleted (filename : String)
deriving Repr, DecidableEq

/-- DatabaseService.getFileByOriginalName: SELECT * WHERE original_name = name
ORDER BY uploaded_at DESC LIMIT 1 — the row with the greatest uploaded_at
among those matching (first-inserted among ties). -/
def getFileByOriginalName (name : String) (s : Store) : Option FileRecord :=
  (s.filter (fun r => r.original_name == name)).foldl
    (fun acc r =>
      match acc with
      | none => some r
      | some m => if m.uploaded_at < r.uploaded_at then some r else acc)
    none

/-- The delete route handler files.delete in part_001: look up the most
recent record by original name (404 when none), delete the metadata rows,
then best-effort rm of that record's file — `rmOk = false` models the rm
spawn failing, which is only logged. -/
def deleteRoute (dbOk rmOk : Bool) (name : String) (s : Store)
    (b : BlobStore) : DeleteResult × Store × BlobStore :=
  match getFileByOriginalName name s with
  | none => (.notFound, s, b)
  | some rec =>
      match deleteFileDB dbOk name s with
      | (false, s') => (.metadataDeleteFailure, s', b)
      | (true, s') =>
          let b' := if rmOk then b.filter (fun kv => !(kv.1 == rec.filename)) else b
          (.deleted name, s', b')

/-- Insert a row into a list kept sorted by uploaded_at descending: the row
goes after every element at least as recent. -/
def insertDesc (r : FileRecord) : List FileRecord → List FileRecord
  | [] => [r]
  | x :: xs =>
      if r.uploaded_at ≤ x.uploaded_at then x :: insertDesc r xs
      else r :: x :: xs

/-- ORDER BY uploaded_at DESC as an insertion sort. -/
def sortDesc : List FileRecord → List FileRecord
  | [] => []
  | x :: xs => insertDesc x (sortDesc xs)

/-- Case-insensitive substring test, the semantics of
original_name ILIKE '%q%' for a wildcard-free q: some suffix of the haystack
starts with the needle, both lowercased. -/
def containsSub (needle : List Char) : List Char → Bool
  | [] => needle.isEmpty
  | c :: t => needle.isPrefixOf (c :: t) || containsSub needle t

/-- Lowercased character list of a string. -/
def lowerChars (s : String) : List Char :=
  s.data.map Char.toLower

/-- The WHERE clause of DatabaseService.searchFiles:
original_name ILIKE '%q%' OR mime_type ILIKE '%q%'. -/
def matchesQuery (q : String) (r : FileRecord) : Bool :=
  containsSub (lowerChars q) (lowerChars r.original_name)
    || containsSub (lowerChars q) (lowerChars r.mime_type)

/-- DatabaseService.searchFiles with an explicit limit: filter by the ILIKE
disjunction, ORDER BY uploaded_at DESC, LIMIT `limit`. -/
def searchFilesLimit (q : String) (limit : Nat) (s : Store) : List FileRecord :=
  (sortDesc (s.filter (matchesQuery q))).take limit

/-- DatabaseService.searchFiles as the /search route calls it: the limit
parameter is left at its default of 50. -/
def searchFiles (q : String) (s : Store) : List FileRecord :=
  searchFilesLimit q 50 s

/-- The inputs calculateChecksum in checksum.ts accepts: Buffer, ArrayBuffer
and Blob (a File is a Blob) each materialize to their bytes; `other` stands
for any value of a different kind. -/
inductive FileLike where
  | buffer (bytes : List Nat)
  | arrayBuffer (bytes : List Nat)
  | blob (bytes : List Nat)
  | other
deriving Repr, DecidableEq

/-- The bytes a FileLike materializes to, none for an unsupported kind. -/
def materializeBytes : FileLike → Option (List Nat)
  | .buffer bs => some bs
  | .arrayBuffer bs => some bs
  | .blob bs => some bs
  | .other => none

/-- One lowercase hexadecimal digit, as JS Number.toString(16) renders it. -/
def hexDigitChar (n : Nat) : Char :=
  if n < 10 then Char.ofNat (48 + n) else Char.ofNat (87 + n)

/-- b.toString(16).padStart(2, "0") for a Uint8Array entry (so b < 256):
one hex digit padded with a leading zero, or two hex digits. -/
def byteToHexChars (b : Nat) : List Char :=
  if b < 16 then ['0', hexDigitChar b]
  else [hexDigitChar (b / 16), hexDigitChar (b % 16)]

/-- calculateChecksum in checksum.ts: materialize the input to bytes
(throwing the TypeError for an unsupported kind), digest them — `digest`
stands for crypto.subtle.digest "SHA-256", which yields a 32-entry
Uint8Array — and hex-encode the digest. -/
def calculateChecksum (digest : List Nat → List Nat) (f : FileLike) :
    Except String String :=
  match materializeBytes f with
  | none => .error "Unsupported file type for checksum calculation"
  | some bs => .ok (String.mk (((digest bs).map byteToHexChars).flatten))

/-- A committed record: content "hello" stored as blob key k_old under the
display name a.txt, checksum c0, size 5. -/
def rOld : FileRecord :=
  { id := "id0", filename := "k_old", original_name := "a.txt", size := 5,
    mime_type := "text/plain", checksum := "c0", uploaded_at := 1,
    uploaded_by := "api-user", uploaded_instance := "app1",
    created_at := 1, updated_at := 1 }

/-- The bytes of "hello". -/
def helloBytes : List Nat := [104, 101, 108, 108, 111]

/-- A checksum function under which helloBytes hashes to c0 (rOld's key). -/
def chkC0 : List Nat → String := fun _ => "c0"

/-- A checksum function under which helloBytes hashes to c1, distinct from
every stored checksum: genuinely new content. -/
def chkC1 : List Nat → String := fun _ => "c1"

/-- The candidate a second uploader of the same "hello" content assembles:
same checksum c0 and size 5 as rOld, fresh storage key. -/
def loserInsert : FileInsert :=
  { filename := "k_l", original_name := "b.txt", size := 5,
    mime_type := "text/plain", checksum := "c0", uploaded_by := "api-user",
    uploaded_instance := "app2" }

/-- A candidate whose checksum c9 matches nothing: a fresh insert. -/
def freshInsert : FileInsert :=
  { filename := "k_f", original_name := "f.txt", size := 2,
    mime_type := "text/plain", checksum := "c9", uploaded_by := "api-user",
    uploaded_instance := "app1" }

/-- An older record under display name a.txt. -/
def recA1 : FileRecord :=
  { id := "id1", filename := "k1", original_name := "a.txt", size := 3,
    mime_type := "text/plain", checksum := "c1", uploaded_at := 1,
    uploaded_by := "api-user", uploaded_instance := "app1",
    created_at := 1, updated_at := 1 }

/-- A newer record under the same display name a.txt. -/
def recA2 : FileRecord :=
  { id := "id2", filename := "k2", original_name := "a.txt", size := 4,
    mime_type := "text/plain", checksum := "c2", uploaded_at := 2,
    uploaded_by := "api-user", uploaded_instance := "app2",
    created_at := 2, updated_at := 2 }

/-- When the FOR UPDATE SELECT finds a matching row with nonempty id and
filename, insertFile returns that row without touching the store. -/
theorem insertFile_dup (d : FileInsert) (newId : String) (now : Nat)
    (s : Store) (r : FileRecord)
    (hfind : s.find? (matchesKey d.checksum d.size) = some r)
    (hid : r.id ≠ "") (hfn : r.filename ≠ "") :
    insertFile d newId now s = (some (r, false), s) := by
  simp only [insertFile, insertFileAt, hfind]
  rw [if_pos ⟨hid, hfn⟩]

/-- When no row matches the dedup key and the generated filename is fresh,
insertFile appends exactly the new row and returns it flagged new. -/
theorem insertFile_fresh (d : FileInsert) (newId : String) (now : Nat)
    (s : Store)
    (hfind : s.find? (matchesKey d.checksum d.size) = none)
    (hnames : ∀ r ∈ s, r.filename ≠ d.filename) :
    insertFile d newId now s
      = (some (newRecOf d newId now, true), s ++ [newRecOf d newId now]) := by
  have hkey : s.any (matchesKey d.checksum d.size) = false := by
    rcases h : s.any (matchesKey d.checksum d.size) with _ | _
    · rfl
    · rcases List.any_eq_true.mp h with ⟨x, hx, hpx⟩
      exact absurd hpx (List.find?_eq_none.mp hfind x hx)
  have hcol : s.any (fun r => r.filename == d.filename) = false := by
    rcases h : s.any (fun r => r.filename == d.filename) with _ | _
    · rfl
    · rcases List.any_eq_true.mp h with ⟨x, hx, hpx⟩
      exact absurd (by simpa using hpx) (hnames x hx)
  simp only [insertFile, insertFileAt, hfind, hkey, hcol]
  simp

/-- A successful lookup by original name implies some row carries that name. -/
theorem any_of_getFile_some {name : String} {s : Store} {rec : FileRecord}
    (h : getFileByOriginalName name s = some rec) :
    s.any (fun r => r.original_name == name) = true := by
  rcases hany : s.any (fun r => r.original_name == name) with _ | _
  · exfalso
    have hnone : ¬ ∃ x ∈ s, (x.original_name == name) = true := by
      intro hex
      rw [← List.any_eq_true] at hex
      rw [hany] at hex
      cases hex
    have hnil : s.filter (fun r => r.original_name == name) = [] := by
      rw [List.filter_eq_nil_iff]
      intro a ha hpa
      exact hnone ⟨a, ha, hpa⟩
    rw [getFileByOriginalName, hnil] at h
    cases h
  · rfl

/-- When no row carries the name, the lookup by original name yields none. -/
theorem getFile_none_of_absent {name : String} {s : Store}
    (h : ∀ r ∈ s, r.original_name ≠ name) :
    getFileByOriginalName name s = none := by
  have hnil : s.filter (fun r => r.original_name == name) = [] := by
    rw [List.filter_eq_nil_iff]
    intro a ha hpa
    exact h a ha (by simpa using hpa)
  rw [getFileByOriginalName, hnil]
  rfl

/-- The padded hex rendering of a byte is always two characters. -/
theorem byteToHexChars_length (b : Nat) : (byteToHexChars b).length = 2 := by
  unfold byteToHexChars
  split <;> rfl

/-- The hex rendering of a full digest has twice as many characters. -/
theorem flatten_hex_length (l : List Nat) :
    ((l.map byteToHexChars).flatten).length = 2 * l.length := by
  induction l with
  | nil => rfl
  | cons x xs ih =>
      simp only [List.map_cons, List.flatten_cons, List.length_append,
        byteToHexChars_length, ih, List.length_cons]
      omega

/-- Hex digits of values below sixteen are lowercase hexadecimal characters. -/
theorem hexDigitChar_mem (n : Nat) (h : n < 16) :
    hexDigitChar n ∈ ("0123456789abcdef").data := by
  have hall : ∀ m, m < 16 → hexDigitChar m ∈ ("0123456789abcdef").data := by decide
  exact hall n h

/-- Both characters of a byte's hex rendering are lowercase hex digits. -/
theorem byteToHexChars_mem (b : Nat) (hb : b < 256) :
    ∀ c ∈ byteToHexChars b, c ∈ ("0123456789abcdef").data := by
  intro c hc
  unfold byteToHexChars at hc
  by_cases h16 : b < 16
  · rw [if_pos h16] at hc
    simp only [List.mem_cons, List.not_mem_nil, or_false] at hc
    rcases hc with rfl | rfl
    · decide
    · exact hexDigitChar_mem b h16
  · rw [if_neg h16] at hc
    simp only [List.mem_cons, List.not_mem_nil, or_false] at hc
    rcases hc with rfl | rfl
    · exact hexDigitChar_mem _ (Nat.div_lt_of_lt_mul hb)
    · exact hexDigitChar_mem _ (Nat.mod_lt _ (by omega))

/-- Inserting into a descending-sorted list permutes consing. -/
theorem insertDesc_perm (r : FileRecord) (l : List FileRecord) :
    (insertDesc r l).Perm (r :: l) := by
  induction l with
  | nil => exact List.Perm.refl _
  | cons x xs ih =>
      unfold insertDesc
      split
      · exact (ih.cons x).trans (List.Perm.swap r x xs)
      · exact List.Perm.refl _

/-- Sorting by uploaded_at descending permutes the input. -/
theorem sortDesc_perm (l : List FileRecord) : (sortDesc l).Perm l := by
  induction l with
  | nil => exact List.Perm.refl _
  | cons x xs ih => exact (insertDesc_perm x (sortDesc xs)).trans (ih.cons x)

/-- insertDesc preserves the descending order on uploaded_at. -/
theorem sorted_insertDesc (r : FileRecord) (l : List FileRecord)
    (h : List.Pairwise (fun a b => b.uploaded_at ≤ a.uploaded_at) l) :
    List.Pairwise (fun a b => b.uploaded_at ≤ a.uploaded_at) (insertDesc r l) := by
  induction l with
  | nil => simp [insertDesc]
  | cons x xs ih =>
      rcases List.pairwise_cons.mp h with ⟨hx, hxs⟩
      unfold insertDesc
      split
      case isTrue hle =>
        refine List.pairwise_cons.mpr ⟨?_, ih hxs⟩
        intro y hy
        rcases List.mem_cons.mp ((insertDesc_perm r xs).mem_iff.mp hy) with rfl | hmem
        · exact hle
        · exact hx y hmem
      case isFalse hgt =>
        refine List.pairwise_cons.mpr ⟨?_, h⟩
        intro y hy
        rcases List.mem_cons.mp hy with rfl | hmem
        · omega
        · exact Nat.le_trans (hx y hmem) (by omega)

/-- sortDesc sorts by uploaded_at descending. -/
theorem sorted_sortDesc (l : List FileRecord) :
    List.Pairwise (fun a b => b.uploaded_at ≤ a.uploaded_at) (sortDesc l) := by
  induction l with
  | nil => simp [sortDesc]
  | cons x xs ih => exact sorted_insertDesc x (sortDesc xs) ih

/-- Claim C1: a duplicate upload should perform no blob-store write and its
success response should be tagged duplicate=true.  The TypeScript upload
handler does neither: re-uploading the already-stored "hello" bytes under
the name b.txt succeeds, answers with the existing record's id and no
duplicate field, yet writes a second blob at the freshly generated key —
the blob store grows from one entry to two. -/
theorem C1_duplicate_upload_still_writes_blob :
    ingestTS chkC0 helloBytes "b.txt" "text/plain" "k_new" "id1" 2 "app1"
        true true [rOld] [("k_old", helloBytes)]
      = (.success "id0" "b.txt" 5 "text/plain" "c0" 1, [rOld],
         [("k_old", helloBytes), ("k_new", helloBytes)])
    ∧ (ingestTS chkC0 helloBytes "b.txt" "text/plain" "k_new" "id1" 2 "app1"
        true true [rOld] [("k_old", helloBytes)]).2.2
      ≠ [("k_old", helloBytes)] := by
  constructor
  · decide
  · decide

/-- Claim C2: insertFile is idempotent.  When a row already matches the
candidate's (checksum, size) the store is returned unchanged together with
that row flagged not-new; and after a first fresh insert creates its one
record, a second call with the same (checksum, size) converges on exactly
that record, again without changing the store. -/
theorem C2_insert_or_get_existing_idempotent
    (d d2 : FileInsert) (newId newId2 : String) (now now2 : Nat) (s : Store) :
    (∀ r, s.find? (matchesKey d.checksum d.size) = some r →
        r.id ≠ "" → r.filename ≠ "" →
        insertFile d newId now s = (some (r, false), s))
    ∧ (s.find? (matchesKey d.checksum d.size) = none →
        (∀ r ∈ s, r.filename ≠ d.filename) →
        newId ≠ "" → d.filename ≠ "" →
        d2.checksum = d.checksum → d2.size = d.size →
        insertFile d newId now s
          = (some (newRecOf d newId now, true), s ++ [newRecOf d newId now])
        ∧ insertFile d2 newId2 now2 (s ++ [newRecOf d newId now])
          = (some (newRecOf d newId now, false), s ++ [newRecOf d newId now])) := by
  constructor
  · intro r hfind hid hfn
    exact insertFile_dup d newId now s r hfind hid hfn
  · intro hfind hnames hid hfn hc hsz
    refine ⟨insertFile_fresh d newId now s hfind hnames, ?_⟩
    have hfind2 :
        (s ++ [newRecOf d newId now]).find? (matchesKey d2.checksum d2.size)
          = some (newRecOf d newId now) := by
      rw [hc, hsz, List.find?_append, hfind]
      have : matchesKey d.checksum d.size (newRecOf d newId now) = true := by
        simp [matchesKey, newRecOf]
      rw [List.find?_cons_of_pos _ this]
      rfl
    exact insertFile_dup d2 newId2 now2 _ _ hfind2 hid hfn

/-- Claim C2 witness: the duplicate branch at a concrete store, and a
concrete fresh insert followed by its convergent re-insert. -/
theorem C2_insert_or_get_existing_idempotent_witness :
    insertFile loserInsert "id9" 7 [rOld] = (some (rOld, false), [rOld])
    ∧ insertFile freshInsert "id8" 9 []
        = (some (newRecOf freshInsert "id8" 9, true), [newRecOf freshInsert "id8" 9])
    ∧ insertFile freshInsert "id7" 11 [newRecOf freshInsert "id8" 9]
        = (some (newRecOf freshInsert "id8" 9, false), [newRecOf freshInsert "id8" 9]) := by
  refine ⟨?_, ?_, ?_⟩
  · exact (C2_insert_or_get_existing_idempotent loserInsert loserInsert "id9" "id9"
      7 7 [rOld]).1 rOld (by decide) (by decide) (by decide)
  · exact ((C2_insert_or_get_existing_idempotent freshInsert freshInsert "id8" "id7"
      9 11 []).2 (by decide) (by decide) (by decide) (by decide) rfl rfl).1
  · have h := ((C2_insert_or_get_existing_idempotent freshInsert freshInsert "id8" "id7"
      9 11 []).2 (by decide) (by decide) (by decide) (by decide) rfl rfl).2
    simpa using h

/-- Claim C3 counterexample: the candidate loserInsert matches nothing at
SELECT time (empty snapshot) but a concurrent transaction has committed rOld
with the same (checksum, size) by INSERT time.  The claim promises the
winner's row with isNew=false; insertFile instead surfaces the unique-key
exception as null — the caller gets an error, not the winner's record. -/
theorem C3_counterexample_race_returns_null :
    insertFileAt loserInsert "id9" 7 [] [rOld] = (none, [rOld])
    ∧ (insertFileAt loserInsert "id9" 7 [] [rOld]).1 ≠ some (rOld, false) := by
  constructor
  · decide
  · decide

/-- Claim C3 amended: when the SELECT snapshot has no match but a concurrent
winner's row makes the INSERT hit the unique (checksum, size) constraint,
insertFile returns null (no record) and the store keeps only the winner's
rows — there is no re-select of the winner. -/
theorem C3_amended_race_returns_error (d : FileInsert) (newId : String)
    (now : Nat) (sSel sNow : Store)
    (hsel : sSel.find? (matchesKey d.checksum d.size) = none)
    (hwin : sNow.any (matchesKey d.checksum d.size) = true) :
    insertFileAt d newId now sSel sNow = (none, sNow) := by
  simp only [insertFileAt, hsel, hwin, Bool.or_true, if_true]

/-- Claim C3 amended witness: the concrete race between loserInsert and the
committed rOld. -/
theorem C3_amended_race_returns_error_witness :
    insertFileAt loserInsert "id9" 7 [] [rOld] = (none, [rOld]) :=
  C3_amended_race_returns_error loserInsert "id9" 7 [] [rOld]
    (by decide) (by decide)

/-- Claim C4 counterexample: the store holds rOld under the name a.txt; new
content (checksum c1) is ingested under the same name and the blob write
fails.  The claim promises compensation removes only the just-inserted row,
leaving rOld untouched; the handler instead deletes by original name, so
rOld is destroyed too and the store ends empty. -/
theorem C4_counterexample_compensation_deletes_neighbour :
    (ingestTS chkC1 helloBytes "a.txt" "text/plain" "k_new2" "id2" 3 "app1"
        false true [rOld] []).2.1 = []
    ∧ rOld ∉ (ingestTS chkC1 helloBytes "a.txt" "text/plain" "k_new2" "id2" 3
        "app1" false true [rOld] []).2.1 := by
  constructor
  · decide
  · decide

/-- Claim C4 amended: when ingesting genuinely new content and the blob
write fails, compensation deletes every metadata row whose original name
equals the upload's display name — the just-inserted row and any
pre-existing rows sharing that name — the call fails with the disk-write
error, the blob store is untouched, and no row for the new content
remains. -/
theorem C4_amended_compensation_deletes_all_same_name
    (chk : List Nat → String) (content : List Nat)
    (name mime genKey newId : String) (now : Nat) (inst : String)
    (s : Store) (b : BlobStore)
    (hsize : content.length ≤ maxSize)
    (hnew : s.find? (matchesKey (chk content) content.length) = none)
    (hkey : ∀ r ∈ s, r.filename ≠ genKey) :
    ingestTS chk content name mime genKey newId now inst false true s b
      = (.diskFailure, s.filter (fun r => !(r.original_name == name)), b)
    ∧ ∀ r ∈ (ingestTS chk content name mime genKey newId now inst false true s b).2.1,
        matchesKey (chk content) content.length r = false := by
  have hins := insertFile_fresh
    (uploadInsert (chk content) content.length name mime inst genKey)
    newId now s hnew hkey
  have hmain : ingestTS chk content name mime genKey newId now inst false true s b
      = (.diskFailure, s.filter (fun r => !(r.original_name == name)), b) := by
    simp only [ingestTS]
    rw [if_neg (by omega)]
    rw [hins]
    have hany : (s ++ [newRecOf (uploadInsert (chk content) content.length name mime inst genKey) newId now]).any
        (fun r => r.original_name == name) = true := by
      refine List.any_eq_true.mpr ⟨newRecOf (uploadInsert (chk content) content.length name mime inst genKey) newId now, ?_, ?_⟩
      · simp
      · simp [newRecOf, uploadInsert]
    have hfilter : (s ++ [newRecOf (uploadInsert (chk content) content.length name mime inst genKey) newId now]).filter
        (fun r => !(r.original_name == name))
        = s.filter (fun r => !(r.original_name == name)) := by
      rw [List.filter_append]
      have : List.filter (fun r => !(r.original_name == name))
          [newRecOf (uploadInsert (chk content) content.length name mime inst genKey) newId now] = [] := by
        simp [newRecOf, uploadInsert]
      rw [this, List.append_nil]
    simp only [deleteFileDB, if_true, hany, hfilter]
    simp
  refine ⟨hmain, ?_⟩
  intro r hr
  rw [hmain] at hr
  have hmem : r ∈ s := (List.mem_filter.mp hr).1
  have := List.find?_eq_none.mp hnew r hmem
  rcases h : matchesKey (chk content) content.length r with _ | _
  · rfl
  · exact absurd h this

/-- Claim C4 amended witness: the concrete failing ingestion next to rOld. -/
theorem C4_amended_compensation_deletes_all_same_name_witness :
    ingestTS chkC1 helloBytes "a.txt" "text/plain" "k_new2" "id2" 3 "app1"
        false true [rOld] []
      = (.diskFailure, [], []) := by
  have h := (C4_amended_compensation_deletes_all_same_name chkC1 helloBytes
    "a.txt" "text/plain" "k_new2" "id2" 3 "app1" [rOld] []
    (by decide) (by decide) (by decide)).1
  simpa using h

/-- Claim C5 counterexample: ingesting new content under a.txt with the blob
write failing AND the compensating delete failing (database unreachable
during it).  The claim demands a distinct, higher-severity failure kind; the
handler ignores deleteFile's result and answers with exactly the same
generic disk-write failure as when compensation succeeds, leaving the
orphaned row (and rOld) in the store. -/
theorem C5_counterexample_comp_failure_absorbed :
    (ingestTS chkC1 helloBytes "a.txt" "text/plain" "k_new2" "id2" 3 "app1"
        false false [rOld] []).1 = UploadResult.diskFailure
    ∧ (ingestTS chkC1 helloBytes "a.txt" "text/plain" "k_new2" "id2" 3 "app1"
        false true [rOld] []).1 = UploadResult.diskFailure
    ∧ newRecOf (uploadInsert "c1" 5 "a.txt" "text/plain" "app1" "k_new2") "id2" 3
        ∈ (ingestTS chkC1 helloBytes "a.txt" "text/plain" "k_new2" "id2" 3 "app1"
            false false [rOld] []).2.1 := by
  refine ⟨?_, ?_, ?_⟩
  · decide
  · decide
  · decide

/-- Claim C5 amended: whenever the blob write fails after a successful
metadata insert, the upload handler reports the one generic disk-write
failure, whether or not the compensating delete succeeds — no distinct
OrphanRecoveryFailure kind exists. -/
theorem C5_amended_comp_failure_same_generic_error
    (chk : List Nat → String) (content : List Nat)
    (name mime genKey newId : String) (now : Nat) (inst : String)
    (compDbOk : Bool) (s : Store) (b : BlobStore)
    (hsize : content.length ≤ maxSize)
    (hins : (insertFile (uploadInsert (chk content) content.length name mime inst genKey)
        newId now s).1.isSome = true) :
    (ingestTS chk content name mime genKey newId now inst false compDbOk s b).1
      = UploadResult.diskFailure := by
  simp only [ingestTS]
  rw [if_neg (by omega)]
  rcases h : insertFile (uploadInsert (chk content) content.length name mime inst genKey)
      newId now s with ⟨res, s'⟩
  rcases res with _ | ⟨rec, isNew⟩
  · rw [h] at hins
    simp at hins
  · simp [h]

/-- Claim C5 amended witness: the concrete run with failing compensation. -/
theorem C5_amended_comp_failure_same_generic_error_witness :
    (ingestTS chkC1 helloBytes "a.txt" "text/plain" "k_new2" "id2" 3 "app1"
        false false [rOld] []).1 = UploadResult.diskFailure :=
  C5_amended_comp_failure_same_generic_error chkC1 helloBytes "a.txt"
    "text/plain" "k_new2" "id2" 3 "app1" false [rOld] []
    (by decide) (by decide)

/-- Claim C6: uploads larger than 100 MiB (104857600 bytes) fail with the
payload-too-large answer before any checksum is computed — the outcome is
identical under any two checksum functions — and with both stores unchanged;
an upload within the limit is never answered payload-too-large. -/
theorem C6_payload_gate
    (chk chk2 : List Nat → String) (content : List Nat)
    (name mime genKey newId : String) (now : Nat) (inst : String)
    (diskOk compDbOk : Bool) (s : Store) (b : BlobStore) :
    maxSize = 104857600
    ∧ (content.length > maxSize →
        ingestTS chk content name mime genKey newId now inst diskOk compDbOk s b
          = (.payloadTooLarge, s, b)
        ∧ ingestTS chk content name mime genKey newId now inst diskOk compDbOk s b
          = ingestTS chk2 content name mime genKey newId now inst diskOk compDbOk s b)
    ∧ (content.length ≤ maxSize →
        (ingestTS chk content name mime genKey newId now inst diskOk compDbOk s b).1
          ≠ UploadResult.payloadTooLarge) := by
  refine ⟨by decide, ?_, ?_⟩
  · intro hgt
    constructor
    · simp only [ingestTS]
      rw [if_pos hgt]
    · simp only [ingestTS]
      rw [if_pos hgt, if_pos hgt]
  · intro hle
    simp only [ingestTS]
    rw [if_neg (by omega)]
    rcases h : insertFile (uploadInsert (chk content) content.length name mime inst genKey)
        newId now s with ⟨res, s'⟩
    rcases res with _ | ⟨rec, isNew⟩
    · simp
    · rcases diskOk with _ | _ <;> simp

/-- Claim C6 witness: a 104857601-byte upload is rejected with both stores
unchanged and without consulting the checksum function, and the 5-byte
hello upload is not size-rejected. -/
theorem C6_payload_gate_witness :
    ingestTS chkC0 (List.replicate 104857601 0) "big.bin" "application/octet-stream"
        "k_big" "id5" 4 "app1" true true [] []
      = (.payloadTooLarge, [], [])
    ∧ ingestTS chkC0 (List.replicate 104857601 0) "big.bin" "application/octet-stream"
        "k_big" "id5" 4 "app1" true true [] []
      = ingestTS chkC1 (List.replicate 104857601 0) "big.bin" "application/octet-stream"
        "k_big" "id5" 4 "app1" true true [] []
    ∧ (ingestTS chkC0 helloBytes "a.txt" "text/plain" "k_new" "id1" 2 "app1"
        true true [] []).1 ≠ UploadResult.payloadTooLarge := by
  have hbig : (List.replicate 104857601 (0 : Nat)).length > maxSize := by
    rw [List.length_replicate]
    decide
  have h1 := (C6_payload_gate chkC0 chkC1 (List.replicate 104857601 0) "big.bin"
    "application/octet-stream" "k_big" "id5" 4 "app1" true true [] []).2.1 hbig
  have h2 := (C6_payload_gate chkC0 chkC1 helloBytes "a.txt" "text/plain"
    "k_new" "id1" 2 "app1" true true [] []).2.2 (by decide)
  exact ⟨h1.1, h1.2, h2⟩

/-- Claim C7 counterexample: two records share the display name a.txt.  The
claim promises Delete removes exactly the most recent one and the older
recA1 remains; the handler's deleteFile removes every row with that name,
leaving the store empty. -/
theorem C7_counterexample_delete_removes_older_too :
    (deleteRoute true true "a.txt" [recA1, recA2]
        [("k1", [0]), ("k2", [1])]).2.1 = []
    ∧ recA1 ∉ (deleteRoute true true "a.txt" [recA1, recA2]
        [("k1", [0]), ("k2", [1])]).2.1 := by
  constructor
  · decide
  · decide

/-- Claim C7 amended: when some record matches the display name, the delete
succeeds and removes every metadata row carrying that name (the most recent
match only determines which blob is best-effort removed), and a failure of
the blob delete leaves the blob store untouched without failing the
user-visible delete. -/
theorem C7_amended_delete_removes_all_matching
    (name : String) (s : Store) (b : BlobStore) (rmOk : Bool)
    (rec : FileRecord)
    (hfind : getFileByOriginalName name s = some rec) :
    deleteRoute true rmOk name s b
      = (.deleted name, s.filter (fun r => !(r.original_name == name)),
         if rmOk then b.filter (fun kv => !(kv.1 == rec.filename)) else b) := by
  have hany := any_of_getFile_some hfind
  simp only [deleteRoute, hfind, deleteFileDB, hany, if_true]

/-- Claim C7 amended witness: the concrete two-record store, with the rm
step failing. -/
theorem C7_amended_delete_removes_all_matching_witness :
    deleteRoute true false "a.txt" [recA1, recA2] [("k1", [0]), ("k2", [1])]
      = (.deleted "a.txt", [], [("k1", [0]), ("k2", [1])]) := by
  have h := C7_amended_delete_removes_all_matching "a.txt" [recA1, recA2]
    [("k1", [0]), ("k2", [1])] false recA2 (by decide)
  simpa using h

/-- Claim C8: deleting a display name no record carries answers not-found
and leaves both the metadata store and the blob store exactly as they
were. -/
theorem C8_delete_nonexistent_not_found
    (dbOk rmOk : Bool) (name : String) (s : Store) (b : BlobStore)
    (h : ∀ r ∈ s, r.original_name ≠ name) :
    deleteRoute dbOk rmOk name s b = (.notFound, s, b) := by
  rw [deleteRoute, getFile_none_of_absent h]

/-- Claim C8 witness: deleting the absent name z.txt from the concrete
store. -/
theorem C8_delete_nonexistent_not_found_witness :
    deleteRoute true true "z.txt" [recA1, recA2] [("k1", [0])]
      = (.notFound, [recA1, recA2], [("k1", [0])]) :=
  C8_delete_nonexistent_not_found true true "z.txt" [recA1, recA2]
    [("k1", [0])] (by decide)

/-- Claim C9: for any input that materializes to bytes, calculateChecksum
returns the digest of those bytes hex-encoded — 64 characters, all lowercase
hexadecimal, given that the digest is a 32-entry byte array — and it throws
the unsupported-input TypeError exactly for inputs that cannot be
materialized. -/
theorem C9_checksum_hex_encoding (digest : List Nat → List Nat) (f : FileLike)
    (hlen : ∀ bs, (digest bs).length = 32)
    (hbyte : ∀ bs, ∀ x ∈ digest bs, x < 256) :
    (∀ bs, materializeBytes f = some bs →
        calculateChecksum digest f
          = Except.ok (String.mk (((digest bs).map byteToHexChars).flatten))
        ∧ (String.mk (((digest bs).map byteToHexChars).flatten)).length = 64
        ∧ ∀ c ∈ ((digest bs).map byteToHexChars).flatten,
            c ∈ ("0123456789abcdef").data)
    ∧ (materializeBytes f = none ↔
        calculateChecksum digest f
          = Except.error "Unsupported file type for checksum calculation") := by
  constructor
  · intro bs hbs
    refine ⟨?_, ?_, ?_⟩
    · rw [calculateChecksum, hbs]
    · show (((digest bs).map byteToHexChars).flatten).length = 64
      rw [flatten_hex_length, hlen]
    · intro c hc
      rcases List.mem_flatten.mp hc with ⟨l, hl, hcl⟩
      rcases List.mem_map.mp hl with ⟨x, hx, rfl⟩
      exact byteToHexChars_mem x (hbyte bs x hx) c hcl
  · constructor
    · intro h
      rw [calculateChecksum, h]
    · intro h
      rcases hm : materializeBytes f with _ | bs
      · rfl
      · rw [calculateChecksum, hm] at h
        cases h

/-- Claim C9 witness: a 32-byte digest of the hello buffer hex-encodes to a
64-character string, and the unsupported kind throws. -/
theorem C9_checksum_hex_encoding_witness :
    calculateChecksum (fun _ => List.range 32) (FileLike.buffer helloBytes)
      = Except.ok (String.mk (((List.range 32).map byteToHexChars).flatten))
    ∧ calculateChecksum (fun _ => List.range 32) FileLike.other
      = Except.error "Unsupported file type for checksum calculation" := by
  have hlen : ∀ bs : List Nat,
      (((fun _ => List.range 32) : List Nat → List Nat) bs).length = 32 :=
    fun _ => rfl
  have hbyte : ∀ bs : List Nat,
      ∀ x ∈ ((fun _ => List.range 32) : List Nat → List Nat) bs, x < 256 :=
    fun _ x hx => lt_of_lt_of_le (List.mem_range.mp hx) (by norm_num)
  refine ⟨?_, ?_⟩
  · exact ((C9_checksum_hex_encoding (fun _ => List.range 32)
      (FileLike.buffer helloBytes) hlen hbyte).1 helloBytes rfl).1
  · exact (C9_checksum_hex_encoding (fun _ => List.range 32)
      FileLike.other hlen hbyte).2.mp rfl

/-- Claim C10: the search operation returns at most 50 records — exactly 50
when more match — and what it returns are matching records of the store in
uploadedAt-descending order, with every omitted match no newer than any
returned one.  The spec's description of search states no such cap. -/
theorem C10_search_capped_at_50 (q : String) (s : Store) :
    (searchFiles q s).length ≤ 50
    ∧ (searchFiles q s).length = min 50 (s.filter (matchesQuery q)).length
    ∧ List.Pairwise (fun a b => b.uploaded_at ≤ a.uploaded_at) (searchFiles q s)
    ∧ (∀ r ∈ searchFiles q s, matchesQuery q r = true ∧ r ∈ s)
    ∧ (∀ x ∈ searchFiles q s,
        ∀ y ∈ (sortDesc (s.filter (matchesQuery q))).drop 50,
          y.uploaded_at ≤ x.uploaded_at) := by
  have hlen2 : (searchFiles q s).length
      = min 50 (s.filter (matchesQuery q)).length := by
    show ((sortDesc (s.filter (matchesQuery q))).take 50).length = _
    rw [List.length_take, (sortDesc_perm _).length_eq]
  refine ⟨?_, hlen2, ?_, ?_, ?_⟩
  · rw [hlen2]
    exact Nat.min_le_left _ _
  · exact List.Pairwise.sublist (List.take_sublist _ _) (sorted_sortDesc _)
  · intro r hr
    have h1 : r ∈ sortDesc (s.filter (matchesQuery q)) :=
      (List.take_sublist _ _).subset hr
    have h2 := List.mem_filter.mp ((sortDesc_perm _).mem_iff.mp h1)
    exact ⟨h2.2, h2.1⟩
  · intro x hx y hy
    have hpw := sorted_sortDesc (s.filter (matchesQuery q))
    rw [← List.take_append_drop 50 (sortDesc (s.filter (matchesQuery q)))] at hpw
    exact (List.pairwise_append.mp hpw).2.2 x hx y hy

/-- Claim C10 witness: on the concrete store, the record recA2 returned by
searching "a" is a match belonging to the store. -/
theorem C10_search_capped_at_50_witness :
    matchesQuery "a" recA2 = true ∧ recA2 ∈ [recA1, recA2] :=
  (C10_search_capped_at_50 "a" [recA1, recA2]).2.2.2.1 recA2 (by decide)

end Golem
